import Mathlib

set_option maxRecDepth 100000

/-!
Verification of the FAT32 metadata core in `src/fat32/mod.rs`.

Shallow embedding conventions:
* Rust `u32` / `u16` / `u8` values are `Nat`s; every `u32` arithmetic
  operation that can exceed 32 bits in the source is followed by an
  explicit reduction `% 2^32` (`wrap32`), matching release-profile
  wrapping semantics.  Division by zero is a defined panic in Rust in
  every profile, so `mount` has an explicit `panicked` outcome for it.
* The `Disk` trait's `read_sector(lba, &mut buf) -> Result<(), Error>`
  is modelled as `read_sector : Nat → Option (List Nat)`: `none` is a
  failed read (which the device contract of the design reports as
  `IoError`), `some buf` a successful read filling the 512-byte buffer.
* The raw-pointer cast of the 512-byte boot sector to the `#[repr(packed)]`
  `BootSector` struct on a little-endian host is embedded as explicit
  little-endian field reads at the packed byte offsets of the struct
  layout (computed below for each accessor).
-/

namespace Fat32

/-- `SECTOR_SIZE` from the source. -/
def SECTOR_SIZE : Nat := 512

/-- Reduction of a `Nat` to the range of a Rust `u32` (wrapping semantics). -/
def wrap32 (n : Nat) : Nat := n % 4294967296

/-- The `Error` enum of the source. -/
inductive Error where
  | IoError
  | InvalidFat32Structure
  | FileNotFound
  | InvalidPath
deriving DecidableEq

/-- The `Disk` trait (read-only part; `write_sector` is never called by this
core).  A failed read is `none`; the device capability contract of the design
reports read failures as `IoError`. -/
structure Disk where
  sector_count : Nat
  read_sector : Nat → Option (List Nat)

/-- Well-formed device: every successful read fills a 512-byte buffer with
byte values (`u8`, hence `< 256`).  This is the Rust type invariant of
`&mut [u8; 512]` buffers, which the `Nat`-list model does not carry by itself. -/
def Disk.Wf (disk : Disk) : Prop :=
  ∀ i buf, disk.read_sector i = some buf → buf.length = 512 ∧ ∀ b ∈ buf, b < 256

/-- Byte `i` of a sector buffer (`buffer[i]` in the source; the default `0`
is never reached at the offsets this core uses on a 512-byte buffer). -/
def byteAt (buf : List Nat) (i : Nat) : Nat := buf.getD i 0

/-- Little-endian decode of 2 bytes at offset `i` (a packed `u16` field read
on a little-endian host). -/
def le16 (buf : List Nat) (i : Nat) : Nat :=
  byteAt buf i + 256 * byteAt buf (i + 1)

/-- Little-endian decode of 4 bytes at offset `i` (`u32::from_le_bytes` /
a packed `u32` field read on a little-endian host). -/
def le32 (buf : List Nat) (i : Nat) : Nat :=
  byteAt buf i + 256 * byteAt buf (i + 1) + 65536 * byteAt buf (i + 2) +
    16777216 * byteAt buf (i + 3)

/-!
Packed-layout offsets of the fields `mount` reads.  `BootSector` is
`jmp_boot : [u8; 3]` (offset 0), `oem_name : [u8; 8]` (offset 3), `bpb`
(offset 11), `_padding : [u8; 420]` (offset 90), `boot_signature : u16`
(offset 510).  Inside `BiosParameterBlock` (relative to the sector start):
`bytes_per_sector : u16` at 11, `sectors_per_cluster : u8` at 13,
`reserved_sector_count : u16` at 14, `num_fats : u8` at 16, then
`root_entry_count`, `total_sectors_16`, `media_descriptor`, `fat_size_16`,
`sectors_per_track`, `num_heads`, `hidden_sectors` (15 bytes, 17..31),
`total_sectors_32 : u32` at 32, `fat_size_32 : u32` at 36, `ext_flags`,
`fs_version` (40..43), `root_cluster : u32` at 44.
-/

/-- `bpb.bytes_per_sector` (packed `u16` at sector offset 11). -/
def bpb_bytes_per_sector (buf : List Nat) : Nat := le16 buf 11

/-- `bpb.sectors_per_cluster` (`u8` at sector offset 13). -/
def bpb_sectors_per_cluster (buf : List Nat) : Nat := byteAt buf 13

/-- `bpb.reserved_sector_count` (packed `u16` at sector offset 14). -/
def bpb_reserved_sector_count (buf : List Nat) : Nat := le16 buf 14

/-- `bpb.num_fats` (`u8` at sector offset 16). -/
def bpb_num_fats (buf : List Nat) : Nat := byteAt buf 16

/-- `bpb.total_sectors_32` (packed `u32` at sector offset 32). -/
def bpb_total_sectors_32 (buf : List Nat) : Nat := le32 buf 32

/-- `bpb.fat_size_32` (packed `u32` at sector offset 36). -/
def bpb_fat_size_32 (buf : List Nat) : Nat := le32 buf 36

/-- `bpb.root_cluster` (packed `u32` at sector offset 44). -/
def bpb_root_cluster (buf : List Nat) : Nat := le32 buf 44

/-- `boot_sector.boot_signature` (packed trailing `u16` at sector offset 510). -/
def boot_signature_of (buf : List Nat) : Nat := le16 buf 510

/-- The `FsInfo` struct of the source (all fields `u32` in the source). -/
structure FsInfo where
  bytes_per_sector : Nat
  sectors_per_cluster : Nat
  reserved_sector_count : Nat
  num_fats : Nat
  fat_size : Nat
  root_cluster : Nat
  first_fat_sector : Nat
  first_data_sector : Nat
  cluster_count : Nat
deriving DecidableEq

/-- Outcome of `Fat32::mount`: `ok`/`err` are the `Result` constructors;
`panicked` is the Rust panic raised by `data_sectors / sectors_per_cluster`
when `sectors_per_cluster == 0` (integer division by zero panics in Rust in
every build profile). -/
inductive MountResult where
  | ok (info : FsInfo)
  | err (e : Error)
  | panicked
deriving DecidableEq

/-- `Fat32::mount`.  Control flow and arithmetic follow the source line by
line; `u32` subtraction `a - b` is embedded as `wrap32 (a + 2^32 - b)`
(wrapping semantics; both operands are `< 2^32`). -/
def mount (disk : Disk) : MountResult :=
  if disk.sector_count = 0 then .err .IoError else
  match disk.read_sector 0 with
  | none => .err .IoError
  | some buffer =>
    if boot_signature_of buffer ≠ 0xAA55 then .err .InvalidFat32Structure else
    if bpb_bytes_per_sector buffer ≠ 512 then .err .InvalidFat32Structure else
    let reserved_sector_count := bpb_reserved_sector_count buffer
    let num_fats := bpb_num_fats buffer
    let fat_size := bpb_fat_size_32 buffer
    let first_fat_sector := reserved_sector_count
    let fat_sectors := wrap32 (num_fats * fat_size)
    let first_data_sector := wrap32 (reserved_sector_count + fat_sectors)
    let total_sectors := bpb_total_sectors_32 buffer
    let data_sectors := wrap32 (total_sectors + 4294967296 - first_data_sector)
    if bpb_sectors_per_cluster buffer = 0 then .panicked else
    let cluster_count := data_sectors / bpb_sectors_per_cluster buffer
    .ok {
      bytes_per_sector := bpb_bytes_per_sector buffer
      sectors_per_cluster := bpb_sectors_per_cluster buffer
      reserved_sector_count := reserved_sector_count
      num_fats := num_fats
      fat_size := fat_size
      root_cluster := bpb_root_cluster buffer
      first_fat_sector := first_fat_sector
      first_data_sector := first_data_sector
      cluster_count := cluster_count }

/-- The device sectors `mount` reads, in order: nothing when the
`sector_count == 0` guard fires, otherwise exactly sector 0 (the source
performs no other `read_sector` call on any path). -/
def mount_reads (disk : Disk) : List Nat :=
  if disk.sector_count = 0 then [] else [0]

/-- `Fat32::cluster_to_lba`.  `cluster - 2` is `u32` wrapping subtraction;
the multiplication and addition wrap likewise. -/
def cluster_to_lba (info : FsInfo) (cluster : Nat) : Nat :=
  let cluster_offset := wrap32 (cluster + 4294967296 - 2)
  wrap32 (info.first_data_sector + wrap32 (cluster_offset * info.sectors_per_cluster))

/-- The sector `get_fat_entry` reads:
`first_fat_sector + fat_entry_offset / bytes_per_sector` with
`fat_entry_offset = cluster * 4` as `u32`. -/
def fat_sector_num (info : FsInfo) (cluster : Nat) : Nat :=
  wrap32 (info.first_fat_sector + wrap32 (cluster * 4) / info.bytes_per_sector)

/-- The intra-sector byte offset of the FAT entry:
`fat_entry_offset % bytes_per_sector`. -/
def fat_entry_in_sector (info : FsInfo) (cluster : Nat) : Nat :=
  wrap32 (cluster * 4) % info.bytes_per_sector

/-- `Fat32::get_fat_entry`.  The bounds check, the sector/offset arithmetic,
the little-endian decode of the 4 bytes at the offset and the final
`& 0x0FFFFFFF` mask follow the source. -/
def get_fat_entry (info : FsInfo) (disk : Disk) (cluster : Nat) : Except Error Nat :=
  if cluster < 2 ∨ wrap32 (info.cluster_count + 2) ≤ cluster then
    .error .InvalidFat32Structure
  else
    match disk.read_sector (fat_sector_num info cluster) with
    | none => .error .IoError
    | some buffer =>
      let entry := le32 buffer (fat_entry_in_sector info cluster)
      .ok (Nat.land entry 0x0FFFFFFF)

/-- The device sectors `get_fat_entry` reads: nothing when the bounds check
rejects the cluster, otherwise exactly the one FAT sector. -/
def get_fat_entry_reads (info : FsInfo) (cluster : Nat) : List Nat :=
  if cluster < 2 ∨ wrap32 (info.cluster_count + 2) ≤ cluster then []
  else [fat_sector_num info cluster]

/-- The FAT-entry lookup exactly as §4.4 Contract A of the design words it
(used to compare `get_fat_entry` against the specified behavior): physical
sector `first_fat_sector + (cluster * 4) / bytes_per_sector`, intra-sector
byte offset `(cluster * 4) % bytes_per_sector`, 4-byte little-endian decode,
mask to the low 28 bits; a device read failure is `IoError`. -/
def fat_entry_spec (info : FsInfo) (disk : Disk) (cluster : Nat) : Except Error Nat :=
  match disk.read_sector (info.first_fat_sector + cluster * 4 / info.bytes_per_sector) with
  | none => .error .IoError
  | some buffer =>
    .ok (Nat.land (le32 buffer (cluster * 4 % info.bytes_per_sector)) 0x0FFFFFFF)

/-- Modelled from the spec: `walk_chain` (§4.4 Contract B) is absent from the
source (§9 notes the source stops at single-entry FAT lookup).  Fuel-indexed
walker: at each step it calls `get_fat_entry` on the current cluster, yields
the current cluster, stops successfully on an end-of-chain sentinel in
`0x0FFFFFF8..=0x0FFFFFFF`, fails on the bad-cluster sentinel `0x0FFFFFF7` or
a free (`0`) / reserved (`1`) entry, and otherwise continues with the entry
as the next cluster; running out of fuel is the cycle-protection failure. -/
def walk_chain_aux (info : FsInfo) (disk : Disk) :
    Nat → Nat → List Nat → Except Error (List Nat)
  | 0, _, _ => .error .InvalidFat32Structure
  | fuel + 1, current, acc =>
    match get_fat_entry info disk current with
    | .error e => .error e
    | .ok entry =>
      if 0x0FFFFFF8 ≤ entry ∧ entry ≤ 0x0FFFFFFF then .ok (acc ++ [current])
      else if entry = 0x0FFFFFF7 ∨ entry = 0 ∨ entry = 1 then
        .error .InvalidFat32Structure
      else walk_chain_aux info disk fuel entry (acc ++ [current])

/-- Modelled from the spec: `walk_chain(start_cluster)` bounds the walk to at
most `cluster_count` steps (§4.4 Contract B cycle protection). -/
def walk_chain (info : FsInfo) (disk : Disk) (start_cluster : Nat) :
    Except Error (List Nat) :=
  walk_chain_aux info disk info.cluster_count start_cluster []

/-!
Concrete inputs.  `bootSectorBytes` lays out a 512-byte boot sector with the
given BPB field values at the packed offsets listed above and the trailing
`0x55 0xAA` signature.
-/

/-- The 4 little-endian bytes of a `u32` value. -/
def le4 (n : Nat) : List Nat :=
  [n % 256, n / 256 % 256, n / 65536 % 256, n / 16777216 % 256]

/-- A 512-byte boot sector with the given BPB fields (all other bytes 0) and
a correct trailing signature. -/
def bootSectorBytes (bps spc rsc nf total fatSize root : Nat) : List Nat :=
  List.replicate 11 0 ++ [bps % 256, bps / 256 % 256, spc, rsc % 256, rsc / 256 % 256, nf] ++
  List.replicate 15 0 ++ le4 total ++ le4 fatSize ++ List.replicate 4 0 ++ le4 root ++
  List.replicate 462 0 ++ [0x55, 0xAA]

/-- An all-zero 512-byte sector. -/
def zeros512 : List Nat := List.replicate 512 0

/-- The synthetic boot sector of the round-trip scenario (§8):
`bps=512, spc=4, rsc=32, nf=2, total=10000, fat_size=100, root=2`. -/
def bootStd : List Nat := bootSectorBytes 512 4 32 2 10000 100 2

/-- A FAT sector: entry of cluster 5 (byte offset 20) stores 6, entry of
cluster 6 (offset 24) stores the end-of-chain raw value `0x0FFFFFF8`, entry
of cluster 7 (offset 28) stores the raw value `0xF0000005`. -/
def fatStd : List Nat :=
  List.replicate 20 0 ++ [6, 0, 0, 0] ++ [0xF8, 0xFF, 0xFF, 0x0F] ++
  [0x05, 0, 0, 0xF0] ++ List.replicate 480 0

/-- The standard concrete device: sector 0 is `bootStd`, sector 32 (first FAT
sector) is `fatStd`, every other sector reads as zeros (all reads succeed). -/
def diskStd : Disk :=
  ⟨10000, fun i => some (if i = 0 then bootStd else if i = 32 then fatStd else zeros512)⟩

/-- The geometry `mount` derives from `bootStd`. -/
def infoStd : FsInfo := ⟨512, 4, 32, 2, 100, 2, 32, 232, 2442⟩

/-- A validated boot sector with `sectors_per_cluster = 0`. -/
def bootZ : List Nat := bootSectorBytes 512 0 32 2 10000 100 2

/-- Device whose boot sector declares `sectors_per_cluster = 0`. -/
def diskZ : Disk := ⟨10000, fun i => if i = 0 then some bootZ else none⟩

/-- A validated boot sector whose `total_sectors_32 = 100` is below the
derived `first_data_sector = 232`. -/
def bootU : List Nat := bootSectorBytes 512 4 32 2 100 100 2

/-- Device with the undersized volume `bootU`. -/
def diskU : Disk := ⟨10000, fun i => if i = 0 then some bootU else none⟩

/-- What `mount` actually builds from `bootU`: the `u32` subtraction
`100 - 232` wraps to `4294967164`, so `cluster_count = 4294967164 / 4`. -/
def infoU : FsInfo := ⟨512, 4, 32, 2, 100, 2, 32, 232, 1073741791⟩

/-- A validated boot sector whose `num_fats * fat_size_32` product
(`255 * 4294967295`) overflows `u32`. -/
def bootO : List Nat := bootSectorBytes 512 4 32 255 10000 4294967295 2

/-- Device with the overflowing volume `bootO`. -/
def diskO : Disk := ⟨10000, fun i => if i = 0 then some bootO else none⟩

/-- What `mount` actually builds from `bootO`: `255 * 4294967295` wraps to
`4294967041`, so `first_data_sector = wrap32 (32 + 4294967041) = 4294967073`
and `cluster_count = wrap32 (10000 + 2^32 - 4294967073) / 4 = 2555`. -/
def infoO : FsInfo := ⟨512, 4, 32, 255, 4294967295, 2, 32, 4294967073, 2555⟩

/-- A huge volume: `spc=1, rsc=1, nf=1, fat_size=1, total = 0xFFFFFFFF`. -/
def bootH : List Nat := bootSectorBytes 512 1 1 1 4294967295 1 2

/-- Device for the huge volume: sector 1 (its FAT sector) stores entry 5 at
offset 0; every other read beyond sectors 0 and 1 fails. -/
def diskH : Disk :=
  ⟨1, fun i => if i = 0 then some bootH else
      if i = 1 then some ([5, 0, 0, 0] ++ List.replicate 508 0) else none⟩

/-- The geometry `mount` derives from `bootH`:
`cluster_count = wrap32 (4294967295 + 2^32 - 2) = 4294967293`. -/
def infoH : FsInfo := ⟨512, 1, 1, 1, 1, 2, 1, 2, 4294967293⟩

/-- A boot sector declaring `bytes_per_sector = 256` (correct signature). -/
def bootBad : List Nat := bootSectorBytes 256 4 32 2 10000 100 2

/-- Device with the unsupported-sector-size boot sector. -/
def diskBad : Disk := ⟨10, fun i => if i = 0 then some bootBad else none⟩

/-- A device reporting zero sectors. -/
def diskEmpty : Disk := ⟨0, fun _ => none⟩

/-! ### Helper lemmas -/

lemma wrap32_lt (n : Nat) : wrap32 n < 4294967296 := Nat.mod_lt _ (by norm_num)

lemma wrap32_eq_of_lt {n : Nat} (h : n < 4294967296) : wrap32 n = n := Nat.mod_eq_of_lt h

lemma wrap32_le (n : Nat) : wrap32 n ≤ n := Nat.mod_le _ _

lemma byteAt_lt (buf : List Nat) (i : Nat) (h : ∀ b ∈ buf, b < 256) :
    byteAt buf i < 256 := by
  induction buf generalizing i with
  | nil => simp [byteAt, List.getD]
  | cons a l ih =>
    cases i with
    | zero => simpa [byteAt] using h a (List.mem_cons_self a l)
    | succ j => simpa [byteAt] using ih j fun b hb => h b (List.mem_cons_of_mem a hb)

lemma le16_lt (buf : List Nat) (i : Nat) (h : ∀ b ∈ buf, b < 256) :
    le16 buf i < 65536 := by
  have h0 := byteAt_lt buf i h
  have h1 := byteAt_lt buf (i + 1) h
  unfold le16
  omega

lemma le32_lt (buf : List Nat) (i : Nat) (h : ∀ b ∈ buf, b < 256) :
    le32 buf i < 4294967296 := by
  have h0 := byteAt_lt buf i h
  have h1 := byteAt_lt buf (i + 1) h
  have h2 := byteAt_lt buf (i + 2) h
  have h3 := byteAt_lt buf (i + 3) h
  unfold le32
  omega

/-- Inversion of a successful `mount`, without device assumptions: the stored
`bytes_per_sector` passed the `== 512` check, `sectors_per_cluster` passed
the nonzero check, and the wrapped fields are `u32`-bounded. -/
lemma mount_ok_inv {disk : Disk} {info : FsInfo} (hm : mount disk = .ok info) :
    info.bytes_per_sector = 512 ∧ info.sectors_per_cluster ≠ 0 ∧
    info.first_data_sector < 4294967296 ∧ info.cluster_count < 4294967296 := by
  simp only [mount] at hm
  split at hm
  · simp at hm
  · split at hm
    · simp at hm
    · rename_i buffer heq
      split at hm
      · simp at hm
      · split at hm
        · simp at hm
        · split at hm
          · simp at hm
          · rename_i hsig hbps hspc
            rw [MountResult.ok.injEq] at hm
            subst hm
            refine ⟨by simpa using hbps, hspc, wrap32_lt _, ?_⟩
            exact Nat.lt_of_le_of_lt (Nat.div_le_self _ _) (wrap32_lt _)

/-- Inversion of a successful `mount` on a well-formed device: the stored
`first_fat_sector` came from the `u16` field `reserved_sector_count`. -/
lemma mount_ok_first_fat {disk : Disk} {info : FsInfo} (hw : Disk.Wf disk)
    (hm : mount disk = .ok info) : info.first_fat_sector < 65536 := by
  simp only [mount] at hm
  split at hm
  · simp at hm
  · split at hm
    · simp at hm
    · rename_i buffer heq
      have hb := (hw 0 buffer heq).2
      split at hm
      · simp at hm
      · split at hm
        · simp at hm
        · split at hm
          · simp at hm
          · rw [MountResult.ok.injEq] at hm
            subst hm
            exact le16_lt buffer 14 hb

/-- `mount` on the standard device yields the standard geometry. -/
lemma mount_diskStd : mount diskStd = .ok infoStd := by decide

/-- The standard device is well-formed. -/
lemma diskStd_wf : Disk.Wf diskStd := by
  intro i buf h
  simp only [diskStd] at h
  cases h
  split
  · exact ⟨by decide, by decide⟩
  · split
    · exact ⟨by decide, by decide⟩
    · exact ⟨by decide, by decide⟩

/-- The huge-volume device is well-formed. -/
lemma diskH_wf : Disk.Wf diskH := by
  intro i buf h
  simp only [diskH] at h
  split at h
  · cases h; exact ⟨by decide, by decide⟩
  · split at h
    · cases h; exact ⟨by decide, by decide⟩
    · simp at h

/-! ### Claim theorems -/

/-- Claim C9: for every device whose `sector_count()` is 0, `mount` returns
the error `IoError` before performing any device read. -/
theorem mount_empty_device_io_error (disk : Disk) (h : disk.sector_count = 0) :
    mount disk = .err .IoError ∧ mount_reads disk = [] := by
  constructor
  · unfold mount; rw [if_pos h]
  · unfold mount_reads; rw [if_pos h]

/-- Witness for C9 on the concrete zero-sector device. -/
theorem mount_empty_device_io_error_witness :
    mount diskEmpty = .err .IoError ∧ mount_reads diskEmpty = [] :=
  mount_empty_device_io_error diskEmpty rfl

/-- Claim C5: for every boot sector whose trailing little-endian 16-bit
signature is not `0xAA55`, or whose `bytes_per_sector` field is not 512,
`mount` returns `InvalidFat32Structure`, and the only device read it performs
is the sector-0 read. -/
theorem mount_rejects_bad_boot_sector (disk : Disk) (buffer : List Nat)
    (h0 : disk.sector_count ≠ 0) (hr : disk.read_sector 0 = some buffer)
    (hbad : boot_signature_of buffer ≠ 0xAA55 ∨ bpb_bytes_per_sector buffer ≠ 512) :
    mount disk = .err .InvalidFat32Structure ∧ mount_reads disk = [0] := by
  refine ⟨?_, by unfold mount_reads; rw [if_neg h0]⟩
  simp only [mount, if_neg h0, hr]
  by_cases hsig : boot_signature_of buffer = 0xAA55
  · have hbps : bpb_bytes_per_sector buffer ≠ 512 := by tauto
    rw [if_neg (by simpa using hsig), if_pos hbps]
  · rw [if_pos hsig]

/-- Witness for C5: a boot sector declaring `bytes_per_sector = 256`. -/
theorem mount_rejects_bad_boot_sector_witness :
    mount diskBad = .err .InvalidFat32Structure ∧ mount_reads diskBad = [0] :=
  mount_rejects_bad_boot_sector diskBad bootBad (by decide) rfl (Or.inr (by decide))

/-- Claim C4: for every mounted volume and every cluster `c` with `c < 2` or
`c ≥ cluster_count + 2`, `get_fat_entry c` returns `InvalidFat32Structure`
without performing any device read. -/
theorem get_fat_entry_rejects_out_of_range (disk : Disk) (info : FsInfo) (c : Nat)
    (_hm : mount disk = .ok info) (hc : c < 2 ∨ info.cluster_count + 2 ≤ c) :
    get_fat_entry info disk c = .error .InvalidFat32Structure ∧
    get_fat_entry_reads info c = [] := by
  have hcond : c < 2 ∨ wrap32 (info.cluster_count + 2) ≤ c := by
    rcases hc with h | h
    · exact Or.inl h
    · exact Or.inr (le_trans (wrap32_le _) h)
  exact ⟨by unfold get_fat_entry; rw [if_pos hcond],
         by unfold get_fat_entry_reads; rw [if_pos hcond]⟩

/-- Witness for C4 on the standard volume at the reserved cluster 1. -/
theorem get_fat_entry_rejects_out_of_range_witness :
    get_fat_entry infoStd diskStd 1 = .error .InvalidFat32Structure ∧
    get_fat_entry_reads infoStd 1 = [] :=
  get_fat_entry_rejects_out_of_range diskStd infoStd 1 mount_diskStd (Or.inl (by decide))

/-- Claim C8: every error value returned by `mount` or `get_fat_entry` is
`IoError` or `InvalidFat32Structure`; `FileNotFound` and `InvalidPath` are
never produced (`cluster_to_lba` is infallible: it returns a bare `u32`). -/
theorem core_errors_restricted (disk : Disk) (info : FsInfo) (c : Nat) (e : Error)
    (h : mount disk = .err e ∨ get_fat_entry info disk c = .error e) :
    e = .IoError ∨ e = .InvalidFat32Structure := by
  rcases h with h | h
  · simp only [mount] at h
    split at h
    · injection h with h; exact Or.inl h.symm
    · split at h
      · injection h with h; exact Or.inl h.symm
      · split at h
        · injection h with h; exact Or.inr h.symm
        · split at h
          · injection h with h; exact Or.inr h.symm
          · split at h
            · simp at h
            · simp at h
  · simp only [get_fat_entry] at h
    split at h
    · injection h with h; exact Or.inr h.symm
    · split at h
      · injection h with h; exact Or.inl h.symm
      · simp at h

/-- Witness for C8 on the zero-sector device (whose mount error is `IoError`). -/
theorem core_errors_restricted_witness :
    Error.IoError = .IoError ∨ Error.IoError = .InvalidFat32Structure :=
  core_errors_restricted diskEmpty infoStd 0 .IoError (Or.inl rfl)

/-- Claim C1 (code bug): `mount` does not contain the specified
`total_sectors_32 < first_data_sector` check.  On the concrete boot sector
`bootU` with `total_sectors_32 = 100` and derived `first_data_sector = 232`,
the `u32` subtraction `100 - 232` wraps to `4294967164`, and `mount` returns
`Ok` with the nonsense `cluster_count = 4294967164 / 4 = 1073741791` instead
of the required `InvalidFat32Structure` error. -/
theorem mount_underflow_not_rejected :
    bpb_total_sectors_32 bootU = 100 ∧
    wrap32 (bpb_reserved_sector_count bootU +
      wrap32 (bpb_num_fats bootU * bpb_fat_size_32 bootU)) = 232 ∧
    mount diskU = .ok infoU ∧ infoU.cluster_count = 1073741791 :=
  ⟨by decide, by decide, by decide, rfl⟩

/-- Claim C2 (amended): for every boot sector that passes validation and in
addition has a nonzero `sectors_per_cluster`, a `num_fats * fat_size_32`
product that does not overflow `u32`, and `first_data_sector ≤
total_sectors_32`, `mount` succeeds and stores exactly the geometry of the
§3 formulas. -/
theorem mount_valid_geometry (disk : Disk) (buffer : List Nat)
    (h0 : disk.sector_count ≠ 0) (hr : disk.read_sector 0 = some buffer)
    (hb : ∀ b ∈ buffer, b < 256)
    (hsig : boot_signature_of buffer = 0xAA55)
    (hbps : bpb_bytes_per_sector buffer = 512)
    (hspc : bpb_sectors_per_cluster buffer ≠ 0)
    (hov : bpb_reserved_sector_count buffer +
      bpb_num_fats buffer * bpb_fat_size_32 buffer < 4294967296)
    (hun : bpb_reserved_sector_count buffer +
      bpb_num_fats buffer * bpb_fat_size_32 buffer ≤ bpb_total_sectors_32 buffer) :
    mount disk = .ok {
      bytes_per_sector := 512
      sectors_per_cluster := bpb_sectors_per_cluster buffer
      reserved_sector_count := bpb_reserved_sector_count buffer
      num_fats := bpb_num_fats buffer
      fat_size := bpb_fat_size_32 buffer
      root_cluster := bpb_root_cluster buffer
      first_fat_sector := bpb_reserved_sector_count buffer
      first_data_sector := bpb_reserved_sector_count buffer +
        bpb_num_fats buffer * bpb_fat_size_32 buffer
      cluster_count := (bpb_total_sectors_32 buffer -
        (bpb_reserved_sector_count buffer + bpb_num_fats buffer * bpb_fat_size_32 buffer)) /
        bpb_sectors_per_cluster buffer } := by
  have htot : bpb_total_sectors_32 buffer < 4294967296 := le32_lt buffer 32 hb
  have hsig' : ¬ (boot_signature_of buffer ≠ 0xAA55) := by simpa using hsig
  have hbps' : ¬ (bpb_bytes_per_sector buffer ≠ 512) := by simpa using hbps
  have h1 : wrap32 (bpb_num_fats buffer * bpb_fat_size_32 buffer)
      = bpb_num_fats buffer * bpb_fat_size_32 buffer := wrap32_eq_of_lt (by omega)
  simp only [mount, if_neg h0, hr, if_neg hsig', if_neg hbps', if_neg hspc, h1,
    wrap32_eq_of_lt hov]
  have h3 : wrap32 (bpb_total_sectors_32 buffer + 4294967296 -
      (bpb_reserved_sector_count buffer + bpb_num_fats buffer * bpb_fat_size_32 buffer))
      = bpb_total_sectors_32 buffer -
        (bpb_reserved_sector_count buffer + bpb_num_fats buffer * bpb_fat_size_32 buffer) := by
    unfold wrap32; omega
  rw [h3, hbps]

/-- Counterexample to C2 as stated.  Three validated boot sectors (correct
signature, `bytes_per_sector = 512`) on which `mount` does not behave as the
claim says: `bootZ` (`sectors_per_cluster = 0`) makes `mount` panic on the
division; `bootU` (`total_sectors_32 = 100 < 232 = first_data_sector`) mounts
with a cluster count that wraps instead of following the §3 formula; `bootO`
(`num_fats * fat_size_32 = 255 * 4294967295`) mounts with a
`first_data_sector` that wraps instead of equalling `reserved + num_fats *
fat_size`. -/
theorem mount_valid_geometry_counterexample :
    mount diskZ = .panicked ∧
    (mount diskU = .ok infoU ∧
      infoU.cluster_count ≠
        (bpb_total_sectors_32 bootU - infoU.first_data_sector) / infoU.sectors_per_cluster) ∧
    (mount diskO = .ok infoO ∧
      infoO.first_data_sector ≠
        infoO.reserved_sector_count + infoO.num_fats * infoO.fat_size) :=
  ⟨by decide, ⟨by decide, by decide⟩, ⟨by decide, by decide⟩⟩

/-- Witness for C2 on the round-trip boot sector of §8: the mounted geometry
is `first_fat_sector = 32`, `first_data_sector = 232`, `cluster_count = 2442`. -/
theorem mount_valid_geometry_witness :
    mount diskStd = .ok {
      bytes_per_sector := 512
      sectors_per_cluster := bpb_sectors_per_cluster bootStd
      reserved_sector_count := bpb_reserved_sector_count bootStd
      num_fats := bpb_num_fats bootStd
      fat_size := bpb_fat_size_32 bootStd
      root_cluster := bpb_root_cluster bootStd
      first_fat_sector := bpb_reserved_sector_count bootStd
      first_data_sector := bpb_reserved_sector_count bootStd +
        bpb_num_fats bootStd * bpb_fat_size_32 bootStd
      cluster_count := (bpb_total_sectors_32 bootStd -
        (bpb_reserved_sector_count bootStd + bpb_num_fats bootStd * bpb_fat_size_32 bootStd)) /
        bpb_sectors_per_cluster bootStd } ∧
    mount diskStd = .ok infoStd :=
  ⟨mount_valid_geometry diskStd bootStd (by decide) rfl (by decide) (by decide)
    (by decide) (by decide) (by decide) (by decide), mount_diskStd⟩

/-- Claim C6 (amended): for every mounted volume and every cluster `c ≥ 2`
such that `first_data_sector + (c - 2) * sectors_per_cluster` does not
overflow `u32`, `cluster_to_lba c` equals that value; in particular
`cluster_to_lba 2 = first_data_sector` (the overflow condition at `c = 2` is
just `first_data_sector < 2^32`, true of every mounted volume). -/
theorem cluster_to_lba_formula (disk : Disk) (info : FsInfo) (c : Nat)
    (hm : mount disk = .ok info) (hc : 2 ≤ c)
    (hov : info.first_data_sector + (c - 2) * info.sectors_per_cluster < 4294967296) :
    cluster_to_lba info c = info.first_data_sector + (c - 2) * info.sectors_per_cluster := by
  obtain ⟨-, hspc, -, -⟩ := mount_ok_inv hm
  have hspc1 : 1 ≤ info.sectors_per_cluster := Nat.one_le_iff_ne_zero.mpr hspc
  have hmul : (c - 2) * 1 ≤ (c - 2) * info.sectors_per_cluster :=
    Nat.mul_le_mul (Nat.le_refl _) hspc1
  simp only [cluster_to_lba]
  have h1 : wrap32 (c + 4294967296 - 2) = c - 2 := by unfold wrap32; omega
  have h2 : wrap32 ((c - 2) * info.sectors_per_cluster) =
      (c - 2) * info.sectors_per_cluster := wrap32_eq_of_lt (by omega)
  rw [h1, h2, wrap32_eq_of_lt (by omega)]

/-- Counterexample to C6 as stated: on the mounted standard volume
(`first_data_sector = 232`, `sectors_per_cluster = 4`) at cluster
`2^30 + 2`, the `u32` product `(c - 2) * 4 = 2^32` wraps to 0, so
`cluster_to_lba` returns 232 while the formula gives `232 + 2^32`. -/
theorem cluster_to_lba_formula_counterexample :
    mount diskStd = .ok infoStd ∧ 2 ≤ 1073741826 ∧
    cluster_to_lba infoStd 1073741826 = 232 ∧
    infoStd.first_data_sector + (1073741826 - 2) * infoStd.sectors_per_cluster =
      4294967528 ∧
    cluster_to_lba infoStd 1073741826 ≠
      infoStd.first_data_sector + (1073741826 - 2) * infoStd.sectors_per_cluster :=
  ⟨mount_diskStd, by decide, by decide, by decide, by decide⟩

/-- Witness for C6 at cluster 2 on the standard volume:
`cluster_to_lba 2 = first_data_sector = 232` exactly. -/
theorem cluster_to_lba_formula_witness :
    cluster_to_lba infoStd 2 =
      infoStd.first_data_sector + (2 - 2) * infoStd.sectors_per_cluster ∧
    cluster_to_lba infoStd 2 = 232 :=
  ⟨cluster_to_lba_formula diskStd infoStd 2 mount_diskStd (by decide) (by decide),
   by decide⟩

/-- Claim C10: for every mounted volume and every cluster that passes
`get_fat_entry`'s bounds check, the intra-sector offset equals
`(cluster * 4) % bytes_per_sector`, is a multiple of 4 at most 508, and the
four byte indices `offset .. offset + 3` stay below 512. -/
theorem fat_entry_offset_in_bounds (disk : Disk) (info : FsInfo) (c : Nat)
    (hm : mount disk = .ok info) (_h2 : 2 ≤ c)
    (_h3 : c < wrap32 (info.cluster_count + 2)) :
    fat_entry_in_sector info c = c * 4 % info.bytes_per_sector ∧
    fat_entry_in_sector info c % 4 = 0 ∧
    fat_entry_in_sector info c ≤ 508 ∧
    fat_entry_in_sector info c + 3 < 512 := by
  obtain ⟨hbps, -, -, -⟩ := mount_ok_inv hm
  simp only [fat_entry_in_sector, wrap32, hbps]
  refine ⟨?_, ?_, ?_, ?_⟩ <;> omega

/-- Witness for C10 at cluster 5 on the standard volume (offset 20). -/
theorem fat_entry_offset_in_bounds_witness :
    (fat_entry_in_sector infoStd 5 = 5 * 4 % infoStd.bytes_per_sector ∧
      fat_entry_in_sector infoStd 5 % 4 = 0 ∧
      fat_entry_in_sector infoStd 5 ≤ 508 ∧
      fat_entry_in_sector infoStd 5 + 3 < 512) ∧
    fat_entry_in_sector infoStd 5 = 20 :=
  ⟨fat_entry_offset_in_bounds diskStd infoStd 5 mount_diskStd (by decide) (by decide),
   by decide⟩

/-- Claim C3 (amended): for every mounted volume on a well-formed device and
every cluster in the valid range whose byte offset `cluster * 4` does not
overflow `u32` (and whose `cluster_count + 2` bound does not overflow),
`get_fat_entry` behaves exactly as §4.4 Contract A words it: it reads sector
`first_fat_sector + (cluster * 4) / bytes_per_sector`, decodes the 4 bytes at
offset `(cluster * 4) % bytes_per_sector` little-endian, and returns the
value masked to its low 28 bits. -/
theorem get_fat_entry_refines_spec (disk : Disk) (info : FsInfo) (c : Nat)
    (hw : Disk.Wf disk) (hm : mount disk = .ok info)
    (h2 : 2 ≤ c) (h3 : c < info.cluster_count + 2)
    (hcc : info.cluster_count + 2 < 4294967296) (hc4 : c * 4 < 4294967296) :
    get_fat_entry info disk c = fat_entry_spec info disk c := by
  obtain ⟨hbps, -, -, -⟩ := mount_ok_inv hm
  have hffs : info.first_fat_sector < 65536 := mount_ok_first_fat hw hm
  have hguard : ¬ (c < 2 ∨ wrap32 (info.cluster_count + 2) ≤ c) := by
    rw [wrap32_eq_of_lt hcc]; omega
  have hsec : fat_sector_num info c = info.first_fat_sector + c * 4 / info.bytes_per_sector := by
    unfold fat_sector_num
    rw [wrap32_eq_of_lt hc4]
    exact wrap32_eq_of_lt (by rw [hbps]; omega)
  have hoff : fat_entry_in_sector info c = c * 4 % info.bytes_per_sector := by
    unfold fat_entry_in_sector
    rw [wrap32_eq_of_lt hc4]
  simp only [get_fat_entry, if_neg hguard, hsec, hoff, fat_entry_spec]

/-- Counterexample to C3 as stated: on the mounted huge volume `infoH`
(`cluster_count = 4294967293`, from `total_sectors_32 = 0xFFFFFFFF` with one
sector per cluster) and the in-range cluster `2^30`, the `u32` byte offset
`cluster * 4` wraps to 0: `get_fat_entry` reads FAT sector 1 and returns the
entry stored there (5), while the sector named by the claim's formula,
`1 + 2^32 / 512 = 8388609`, is past the device and the specified read fails
with `IoError`. -/
theorem get_fat_entry_refines_spec_counterexample :
    mount diskH = .ok infoH ∧ Disk.Wf diskH ∧
    2 ≤ 1073741824 ∧ 1073741824 < infoH.cluster_count + 2 ∧
    get_fat_entry infoH diskH 1073741824 = .ok 5 ∧
    fat_entry_spec infoH diskH 1073741824 = .error .IoError :=
  ⟨by decide, diskH_wf, by decide, by decide, rfl, rfl⟩

/-- Witness for C3 at cluster 7 on the standard volume, whose stored raw FAT
value is `0xF0000005`: the entry decodes, after the 28-bit mask, to
`0x00000005`. -/
theorem get_fat_entry_refines_spec_witness :
    get_fat_entry infoStd diskStd 7 = fat_entry_spec infoStd diskStd 7 ∧
    get_fat_entry infoStd diskStd 7 = .ok 5 :=
  ⟨get_fat_entry_refines_spec diskStd infoStd 7 diskStd_wf mount_diskStd
    (by decide) (by decide) (by decide) (by decide), rfl⟩

/-! ### Chain walking (C7) -/

/-- On a device whose reads all succeed, `get_fat_entry` either rejects the
cluster with `InvalidFat32Structure` or returns an entry. -/
lemma get_fat_entry_cases (info : FsInfo) (disk : Disk) (c : Nat)
    (hrel : ∀ i, (disk.read_sector i).isSome) :
    get_fat_entry info disk c = .error .InvalidFat32Structure ∨
    ∃ v, get_fat_entry info disk c = .ok v := by
  unfold get_fat_entry
  split
  · exact Or.inl rfl
  · rcases h : disk.read_sector (fat_sector_num info c) with - | buffer
    · have hs := hrel (fat_sector_num info c)
      rw [h] at hs
      simp at hs
    · exact Or.inr ⟨Nat.land (le32 buffer (fat_entry_in_sector info c)) 0x0FFFFFFF, rfl⟩

/-- Appending one element determines `getLast?`. -/
lemma getLast?_append_singleton {α : Type} (l : List α) (a : α) :
    (l ++ [a]).getLast? = some a := by
  simp

/-- The walk invariant behind C7: with any fuel, from any current cluster and
accumulator, the fuelled walker either fails with `InvalidFat32Structure` or
succeeds having appended a nonempty chain of at most `fuel` clusters whose
last cluster's FAT entry is an end-of-chain sentinel. -/
lemma walk_chain_aux_spec (info : FsInfo) (disk : Disk)
    (hrel : ∀ i, (disk.read_sector i).isSome) :
    ∀ fuel cur acc,
      walk_chain_aux info disk fuel cur acc = .error .InvalidFat32Structure ∨
      ∃ l last e, walk_chain_aux info disk fuel cur acc = .ok (acc ++ l) ∧
        l ≠ [] ∧ (acc ++ l).getLast? = some last ∧
        get_fat_entry info disk last = .ok e ∧
        268435448 ≤ e ∧ e ≤ 268435455 ∧ l.length ≤ fuel := by
  intro fuel
  induction fuel with
  | zero => intro cur acc; exact Or.inl rfl
  | succ n ih =>
    intro cur acc
    rcases get_fat_entry_cases info disk cur hrel with herr | ⟨v, hv⟩
    · left
      unfold walk_chain_aux
      rw [herr]
    · unfold walk_chain_aux
      simp only [hv]
      by_cases heoc : 268435448 ≤ v ∧ v ≤ 268435455
      · right
        refine ⟨[cur], cur, v, by rw [if_pos heoc], by simp,
          getLast?_append_singleton acc cur, hv, heoc.1, heoc.2, by simp⟩
      · rw [if_neg heoc]
        by_cases hbad : v = 268435447 ∨ v = 0 ∨ v = 1
        · left
          rw [if_pos hbad]
        · rw [if_neg hbad]
          rcases ih v (acc ++ [cur]) with h | ⟨l, last, e, h1, h2, h3, h4, h5, h6, h7⟩
          · exact Or.inl h
          · right
            refine ⟨cur :: l, last, e, ?_, by simp, ?_, h4, h5, h6, by simp; omega⟩
            · simpa using h1
            · simpa using h3

/-- Claim C7: on a device whose reads succeed, every chain walk terminates
within at most `cluster_count` steps: it either succeeds with a nonempty
chain of at most `cluster_count` clusters whose last cluster's entry is an
end-of-chain sentinel in `0x0FFFFFF8..=0x0FFFFFFF`, or it fails with
`InvalidFat32Structure` (bad/free/reserved entry, out-of-range cluster, or
fuel exhaustion on a self-referencing chain); it never loops forever. -/
theorem walk_chain_terminates (info : FsInfo) (disk : Disk) (start_cluster : Nat)
    (hrel : ∀ i, (disk.read_sector i).isSome) :
    (∃ l last e, walk_chain info disk start_cluster = .ok l ∧ l ≠ [] ∧
      l.getLast? = some last ∧ get_fat_entry info disk last = .ok e ∧
      268435448 ≤ e ∧ e ≤ 268435455 ∧ l.length ≤ info.cluster_count) ∨
    walk_chain info disk start_cluster = .error .InvalidFat32Structure := by
  rcases walk_chain_aux_spec info disk hrel info.cluster_count start_cluster []
    with h | ⟨l, last, e, h1, h2, h3, h4, h5, h6, h7⟩
  · exact Or.inr h
  · exact Or.inl ⟨l, last, e, by simpa using h1, h2, by simpa using h3, h4, h5, h6, h7⟩

/-- Witness for C7 on the standard volume: the walk from cluster 5 follows
the FAT (entry 5 is 6, entry 6 is end-of-chain) and yields exactly `[5, 6]`. -/
theorem walk_chain_terminates_witness :
    ((∃ l last e, walk_chain infoStd diskStd 5 = .ok l ∧ l ≠ [] ∧
      l.getLast? = some last ∧ get_fat_entry infoStd diskStd last = .ok e ∧
      268435448 ≤ e ∧ e ≤ 268435455 ∧ l.length ≤ infoStd.cluster_count) ∨
    walk_chain infoStd diskStd 5 = .error .InvalidFat32Structure) ∧
    walk_chain infoStd diskStd 5 = .ok [5, 6] :=
  ⟨walk_chain_terminates infoStd diskStd 5 (fun _ => rfl), rfl⟩

end Fat32
